import Mathlib

/-!
Verification development for the HUMANOID_ROBOTICS_AI_TEXTBOOK RAG pipeline.

The Python sources are shallowly embedded:
  - text is `List Char` (Python `str`), with Python-style helpers
    (`str.strip`, `str.lower`, substring membership) defined below;
  - floats are modelled as exact rationals `ℚ`;
  - Python `int` parameters that the code range-checks are modelled as `Int`;
  - fallible code returns `Except`;
  - the external collaborators (Cohere embedding / chat services, the Qdrant
    client) are oracles passed in as function-valued parameters, so the
    control flow of the embedded code is exactly the source's;
  - wall-clock timings (`time.time()` deltas) are outside the embedding's
    scope and are modelled as the constant `0`; `uuid.uuid4()` is modelled
    as an id supplied by the environment (`freshId`).
-/

set_option maxRecDepth 40000

/-! ## Python string helpers -/

/-- Python whitespace characters as tested by `str.strip()` / `str.isspace()`
(ASCII subset; the sources only ever meet ASCII whitespace). -/
def pyIsSpace (c : Char) : Bool :=
  c == ' ' || c == '\t' || c == '\n' || c == '\r' || c == '\x0b' || c == '\x0c'

/-- Python `str.strip()`. -/
def pyStrip (s : List Char) : List Char :=
  ((s.dropWhile pyIsSpace).reverse.dropWhile pyIsSpace).reverse

/-- Python `str.lower()` (ASCII). -/
def pyLower (s : List Char) : List Char := s.map Char.toLower

/-- Python `needle in hay` on strings (substring containment). -/
def containsSub (needle hay : List Char) : Bool := decide (needle <:+: hay)

/-- Python `str(n)` for a natural number. -/
def natRepr (n : Nat) : List Char := (Nat.repr n).toList

/-! ## agent.py — data model (lines 52-155) -/

/-- `ResponseStatus` enum, agent.py lines 52-56. -/
inductive ResponseStatus
  | success
  | conversational
  | insufficient_context
  | error
deriving DecidableEq, Repr

/-- `ChunkMetadata` dataclass, agent.py lines 73-79. -/
structure ChunkMetadata where
  page_number : Option Int := none
  section_title : Option (List Char) := none
  chapter : Option (List Char) := none
  url : Option (List Char) := none
  chunk_index : Option Int := none
deriving DecidableEq, Repr

/-- `TextChunk` dataclass, agent.py lines 81-87.  Point ids in this
deployment are uuid strings, so `chunk_id` is modelled as text. -/
structure TextChunk where
  chunk_id : List Char
  text : List Char
  vector : Option (List ℚ) := none
  metadata : ChunkMetadata := {}
  similarity_score : Option ℚ := none
deriving DecidableEq, Repr

/-- `RetrievalParameters` dataclass, agent.py lines 89-94. -/
structure RetrievalParameters where
  top_k : Nat := 5
  score_threshold : ℚ := 1/2
  collection_name : List Char := "rag_embedding".toList
  embedding_model : List Char := "embed-english-v3.0".toList
deriving DecidableEq, Repr

/-- `Query` dataclass, agent.py lines 58-71 (`timestamp` is wall-clock and
out of scope; `metadata` is never read by the pipeline). -/
structure Query where
  text : List Char
  query_id : List Char
deriving DecidableEq, Repr

/-- `Query.__post_init__` validation, agent.py lines 65-71: empty/blank text
and text over 500 characters raise `ValueError`. -/
def mkQuery (text query_id : List Char) : Except (List Char) Query :=
  if pyStrip text = [] then .error "Query text cannot be empty".toList
  else if 500 < text.length then
    .error "Query text too long (max 500 characters)".toList
  else .ok { text := text, query_id := query_id }

/-- `RetrievalResult` dataclass, agent.py lines 96-103. -/
structure RetrievalResult where
  query : Query
  chunks : List TextChunk
  retrieval_time_ms : ℚ
  total_candidates : Nat
  filtered_count : Nat
  parameters : RetrievalParameters
deriving DecidableEq, Repr

/-- `ConfidenceScore` dataclass, agent.py lines 105-110. -/
structure ConfidenceScore where
  retrieval_quality : ℚ := 0
  coverage_score : ℚ := 0
  entailment_score : ℚ := 0
  lexical_overlap : ℚ := 0
deriving DecidableEq, Repr

/-- `ConfidenceScore.overall`, agent.py lines 112-120: the fixed weighted sum
over the four signals. -/
def ConfidenceScore.overall (cs : ConfidenceScore) : ℚ :=
  35/100 * cs.retrieval_quality + 25/100 * cs.coverage_score
    + 25/100 * cs.entailment_score + 15/100 * cs.lexical_overlap

/-- `ConfidenceScore.level`, agent.py lines 122-127. -/
def ConfidenceScore.level (cs : ConfidenceScore) : List Char :=
  if 8/10 ≤ cs.overall then "high".toList
  else if 6/10 ≤ cs.overall then "medium".toList
  else "low".toList

/-- `SourceReference` dataclass, agent.py lines 129-135. -/
structure SourceReference where
  chunk_id : List Char
  citation_index : Nat
  relevance_score : ℚ
  excerpt : List Char
  metadata : ChunkMetadata
deriving DecidableEq, Repr

/-- `ResponseMetadata` dataclass, agent.py lines 137-145 (timings modelled
as 0, `timestamp` out of scope). -/
structure ResponseMetadata where
  model : List Char
  temperature : ℚ
  total_time_ms : ℚ
  retrieval_time_ms : ℚ
  generation_time_ms : ℚ
  tokens_used : Option Nat := none
deriving DecidableEq, Repr

/-- `AgentResponse` dataclass, agent.py lines 147-155.  The dataclass body
declares the fields and nothing else: there is no `__post_init__`, so any
field combination constructs. -/
structure AgentResponse where
  query_id : List Char
  status : ResponseStatus
  answer : Option (List Char) := none
  confidence : Option ConfidenceScore := none
  sources : List SourceReference := []
  metadata : Option ResponseMetadata := none
  error_message : Option (List Char) := none
deriving DecidableEq, Repr

/-- The spec's AgentResponse invariants (spec.md section 3): `SUCCESS`
requires a non-null answer and at least one source; `CONVERSATIONAL`
requires a non-null answer and zero sources; `INSUFFICIENT_CONTEXT` and
`ERROR` require a non-null `error_message`.  (Membership of `status` in the
four states is enforced by the `ResponseStatus` type itself.) -/
def responseInvariant (r : AgentResponse) : Prop :=
  (r.status = .success → r.answer ≠ none ∧ r.sources ≠ []) ∧
  (r.status = .conversational → r.answer ≠ none ∧ r.sources = []) ∧
  (r.status = .insufficient_context → r.error_message ≠ none) ∧
  (r.status = .error → r.error_message ≠ none)

instance (r : AgentResponse) : Decidable (responseInvariant r) := by
  unfold responseInvariant; infer_instance

/-! ## agent.py — query classifier (lines 210-225) -/

/-- The fixed phrase list of `_is_greeting_or_low_intent`, agent.py
lines 214-217. -/
def greetingPatterns : List (List Char) :=
  ["hello", "hi", "hey", "greetings", "good morning", "how are you",
   "who are you", "what can you do", "thanks", "bye", "help"].map String.toList

/-- `RetrievalAgent._is_greeting_or_low_intent`, agent.py lines 210-225:
empty query is low intent; otherwise lowercase+strip and match each pattern
by exact equality or by pattern-plus-one-space prefix; finally, a stripped
query shorter than 3 characters with no alphabetic character is low
intent. -/
def isGreetingOrLowIntent (query : List Char) : Bool :=
  if query = [] then true
  else
    let normalized := pyStrip (pyLower query)
    if greetingPatterns.any (fun p =>
        normalized = p || (p ++ [' ']).isPrefixOf normalized) then true
    else if (pyStrip normalized).length < 3 && !(normalized.any Char.isAlpha) then
      true
    else false

/-- `RetrievalAgent._handle_greeting_query`, agent.py lines 227-232. -/
def greetingResponseText : List Char :=
  ("Hello! I'm your AI assistant for the Humanoid Robotics Textbook. " ++
   "I can help answer questions about humanoid robotics concepts. " ++
   "What would you like to know?").toList

/-! ## agent.py — external collaborators -/

/-- The slice of the Qdrant `get_collection` reply the code consults:
`points_count` (agent.py line 310) and the configured vector size
(retrieve.py line 568). -/
structure CollectionView where
  size : Nat
  points_count : Nat
deriving DecidableEq, Repr

/-- A Qdrant point payload as read by `retrieve_information`, agent.py
lines 284-290 (`payload.get` with defaults; the payload dict is modelled as
an always-present record of the keys the code reads). -/
structure PointPayload where
  title : Option (List Char) := none
  url : Option (List Char) := none
  chunk_index : Option Int := none
  content : List Char := []
  content_preview : List Char := []
deriving DecidableEq, Repr

/-- A scored search hit returned by `query_points` / `search`. -/
structure ScoredPoint where
  id : List Char
  score : ℚ
  payload : PointPayload
deriving DecidableEq, Repr

/-- A grounding document for the Cohere chat call, agent.py lines 327-334. -/
structure CohereDoc where
  text : List Char
  title : List Char
  url : List Char
deriving DecidableEq, Repr

/-- The environment of a `RetrievalAgent`: its configuration (agent.py
lines 168-206) plus the external calls the query pipeline makes, each an
oracle that may fail with an exception message. -/
structure AgentEnv where
  model : List Char
  temperature : ℚ
  top_k : Nat
  score_threshold : ℚ
  collection_name : List Char
  freshId : List Char
  getCollection : Except (List Char) CollectionView
  embedQuery : List Char → Except (List Char) (List ℚ)
  searchPoints : List ℚ → Nat → ℚ → Except (List Char) (List ScoredPoint)
  chat : List Char → List CohereDoc → Except (List Char) (List Char)

/-- Python `a or default` for an optional string field (None and the empty
string both fall through to the default), agent.py lines 330-331. -/
def orDefault (v : Option (List Char)) (d : List Char) : List Char :=
  match v with
  | none => d
  | some x => if x = [] then d else x

/-- The `documents` list built by `generate_answer`, agent.py lines 326-334. -/
def docsOf (chunks : List TextChunk) : List CohereDoc :=
  chunks.map fun chunk =>
    { text := chunk.text,
      title := orDefault chunk.metadata.section_title "Textbook Section".toList,
      url := orDefault chunk.metadata.url [] }

/-! ## agent.py — answer generation (lines 318-370) -/

/-- The fixed no-context message, agent.py line 323. -/
def insufficientInfoMsg : List Char :=
  ("I cannot find sufficient information in the provided textbook content " ++
   "to answer this question.").toList

/-- Fallback for model errors, agent.py line 366. -/
def modelUnavailableMsg : List Char :=
  ("The AI model is currently unavailable. Please contact support or try " ++
   "again later.").toList

/-- Fallback for auth errors, agent.py line 368. -/
def authFailedMsg : List Char :=
  "Authentication failed. Please check the API configuration.".toList

/-- Generic generation-failure fallback, agent.py line 370. -/
def genericGenErrorMsg : List Char :=
  ("I encountered an error generating the answer. Please try again or " ++
   "contact support.").toList

/-- The `except` arm of `generate_answer`, agent.py lines 361-370: pick a
fallback message from the exception text. -/
def fallbackMessage (e : List Char) : List Char :=
  if containsSub "404".toList e || containsSub "model".toList (pyLower e) then
    modelUnavailableMsg
  else if containsSub "401".toList e || containsSub "api key".toList (pyLower e) then
    authFailedMsg
  else genericGenErrorMsg

/-- `RetrievalAgent.generate_answer`, agent.py lines 318-370: no chunks
yields the fixed insufficient-information message; otherwise call the chat
service, and on failure swallow the exception and return a fallback
message.  This function is total: generation failure never escapes. -/
def generate_answer (env : AgentEnv) (query : List Char)
    (retrieved_chunks : List TextChunk) : List Char :=
  if retrieved_chunks = [] then insufficientInfoMsg
  else
    match env.chat query (docsOf retrieved_chunks) with
    | .ok answer => answer
    | .error e => fallbackMessage e

/-! ## agent.py — retrieval (lines 250-316) -/

/-- The chunk list built from search hits, agent.py lines 282-299: read
`content` falling back to `content_preview` (Python `or` chain), and keep
only hits whose stripped content has at least 50 characters. -/
def chunksOfPoints (pts : List ScoredPoint) : List TextChunk :=
  pts.filterMap fun r =>
    let full := if r.payload.content ≠ [] then r.payload.content
                else r.payload.content_preview
    if 50 ≤ (pyStrip full).length then
      some { chunk_id := r.id, text := full,
             metadata := { section_title := r.payload.title,
                           url := r.payload.url,
                           chunk_index := r.payload.chunk_index },
             similarity_score := some r.score }
    else none

/-- `RetrievalAgent.retrieve_information`, agent.py lines 250-316: check the
collection exists (line 255, converted to `ValueError` on failure), embed
the query (line 259), search (lines 262-280; the duck-typed
`query_points`/`search` fallback is one search oracle here, cf. spec.md
section 9), filter hits into chunks, re-read collection stats (line 302),
and build the result (line 306, which constructs `Query(text=query)` and so
re-runs query validation).  No dimension check is made anywhere on the
query vector.  Exceptions propagate to the caller (lines 314-316 re-raise). -/
def retrieve_information (env : AgentEnv) (query : List Char)
    (top_k : Nat) (score_threshold : ℚ) : Except (List Char) RetrievalResult :=
  match env.getCollection with
  | .error _ =>
      .error ("Qdrant collection '".toList ++ env.collection_name ++
              "' not found.".toList)
  | .ok _ =>
    match env.embedQuery query with
    | .error e => .error e
    | .ok emb =>
      match env.searchPoints emb top_k score_threshold with
      | .error e => .error e
      | .ok pts =>
        let chunks := chunksOfPoints pts
        match env.getCollection with
        | .error e => .error e
        | .ok col =>
          match mkQuery query env.freshId with
          | .error e => .error e
          | .ok q =>
            .ok { query := q, chunks := chunks, retrieval_time_ms := 0,
                  total_candidates := col.points_count,
                  filtered_count := chunks.length,
                  parameters := { top_k := top_k,
                                  score_threshold := score_threshold,
                                  collection_name := env.collection_name } }

/-! ## agent.py — the query pipeline (lines 372-446) -/

/-- The confidence computation of `query`, agent.py lines 406-411: start
from all-zero; when chunks exist, `retrieval_quality` is the max over the
truthy similarity scores (Python filters out `None` and `0.0`) with `0.0`
as the fallback, and coverage/entailment are the fixed placeholder 0.8. -/
def maxSimilarity (chunks : List TextChunk) : ℚ :=
  let vals := (chunks.filterMap TextChunk.similarity_score).filter
    (fun s => decide (s ≠ 0))
  match vals with
  | [] => 0
  | v :: vs => vs.foldl max v

/-- See `maxSimilarity`; agent.py lines 407-411. -/
def confidenceOf (chunks : List TextChunk) : ConfidenceScore :=
  if chunks = [] then {}
  else { retrieval_quality := maxSimilarity chunks,
         coverage_score := 8/10, entailment_score := 8/10 }

/-- The sources built by `query`, agent.py lines 414-423: one 1-based
`SourceReference` per chunk, in retrieval order, with a 100-character
excerpt plus ellipsis. -/
def buildSources (chunks : List TextChunk) : List SourceReference :=
  chunks.enum.map fun p =>
    { chunk_id := p.2.chunk_id, citation_index := p.1 + 1,
      relevance_score := p.2.similarity_score.getD 0,
      excerpt := p.2.text.take 100 ++ "...".toList,
      metadata := p.2.metadata }

/-- `ResponseMetadata` as `query` fills it (timings modelled as 0). -/
def mkResponseMetadata (env : AgentEnv) : ResponseMetadata :=
  { model := env.model, temperature := env.temperature, total_time_ms := 0,
    retrieval_time_ms := 0, generation_time_ms := 0 }

/-- The body of the `try` block of `RetrievalAgent.query`, agent.py
lines 382-442: greeting short-circuit (lines 383-394), retrieve, generate,
score, build sources, and demote to `INSUFFICIENT_CONTEXT` when the answer
matches the canonical cannot-find pattern (lines 427-430).  An `.error`
value stands for an exception escaping the block. -/
def queryTryBody (env : AgentEnv) (user_query query_id : List Char) :
    Except (List Char) AgentResponse :=
  if isGreetingOrLowIntent user_query then
    .ok { query_id := query_id, status := .conversational,
          answer := some greetingResponseText,
          confidence := some ⟨1, 1, 1, 1⟩, sources := [],
          metadata := some (mkResponseMetadata env) }
  else
    match retrieve_information env user_query env.top_k env.score_threshold with
    | .error e => .error e
    | .ok rr =>
      if containsSub "sufficient information".toList
           (generate_answer env user_query rr.chunks) &&
         containsSub "cannot find".toList
           (generate_answer env user_query rr.chunks) then
        .ok { query_id := query_id, status := .insufficient_context,
              answer := none, confidence := some (confidenceOf rr.chunks),
              sources := buildSources rr.chunks,
              metadata := some (mkResponseMetadata env),
              error_message := some (generate_answer env user_query rr.chunks) }
      else
        .ok { query_id := query_id, status := .success,
              answer := some (generate_answer env user_query rr.chunks),
              confidence := some (confidenceOf rr.chunks),
              sources := buildSources rr.chunks,
              metadata := some (mkResponseMetadata env) }

namespace RetrievalAgent

/-- `RetrievalAgent.query`, agent.py lines 372-446.  `Query(text=user_query)`
is constructed at line 379, before the `try` at line 382, so its
`ValueError` escapes to the caller (an `.error` result); every exception
raised inside the `try` is caught at line 444 and converted to a
`status=ERROR` response whose `error_message` is the exception's message. -/
def query (env : AgentEnv) (user_query : List Char) :
    Except (List Char) AgentResponse :=
  match mkQuery user_query env.freshId with
  | .error e => .error e
  | .ok q =>
    .ok (match queryTryBody env user_query q.query_id with
         | .ok r => r
         | .error e =>
            { query_id := q.query_id, status := .error,
              error_message := some e })

end RetrievalAgent

/-! ## main.py — chunk_text (lines 1725-1788) -/

/-- The chunking loop of `chunk_text`, main.py lines 1767-1786: windows of
`size` characters stepping by `size - overlap`; the final window runs to the
end of the text.  The Python `while` loop is embedded with explicit fuel;
`chunk_text` passes `text.length`, which the lemmas below show is enough
whenever `overlap < size`. -/
def chunkLoop (text : List Char) (size overlap : Nat) :
    Nat → Nat → List (List Char)
  | _, 0 => []
  | start, fuel + 1 =>
    if start < text.length then
      if text.length ≤ start + size then [text.drop start]
      else ((text.drop start).take size) ::
        chunkLoop text size overlap (start + (size - overlap)) fuel
    else []

/-- `chunk_text`, main.py lines 1725-1788, validations in source order:
blank text returns `[]` before any parameter validation (lines 1744-1746);
then `chunk_size <= 0`, `chunk_overlap < 0`, `chunk_overlap >= chunk_size`
and `chunk_size > 10000` each raise `ValueError` (lines 1751-1765); finally
the window loop runs.  Parameters are Python ints, hence `Int`. -/
def chunk_text (text : List Char) (chunk_size chunk_overlap : Int) :
    Except (List Char) (List (List Char)) :=
  if text.all pyIsSpace then .ok []
  else if chunk_size ≤ 0 then .error "chunk_size must be positive".toList
  else if chunk_overlap < 0 then
    .error "chunk_overlap cannot be negative".toList
  else if chunk_size ≤ chunk_overlap then
    .error "chunk_overlap must be less than chunk_size".toList
  else if 10000 < chunk_size then
    .error "chunk_size seems too large, maximum recommended is 10000".toList
  else .ok (chunkLoop text chunk_size.toNat chunk_overlap.toNat 0 text.length)

/-- Overlap-aware concatenation from the spec (spec.md section 8): keep the
first chunk whole and drop the first `overlap` characters of every later
chunk. -/
def joinOverlap (overlap : Nat) : List (List Char) → List Char
  | [] => []
  | c :: rest => c ++ (rest.map (List.drop overlap)).flatten

/-! ## main.py — embed (lines 1789-1872) -/

/-- Python truthiness of `text and len(text.strip()) > 0`, main.py
line 1839. -/
def notBlank (t : List Char) : Bool := !(t.all pyIsSpace)

/-- The batch split of `embed`, main.py line 1851: `range(0, len, 96)`
slices of at most 96 texts (`max_batch_size = 96`, line 1846). -/
def toBatches : List (List Char) → List (List (List Char))
  | [] => []
  | x :: xs => ((x :: xs).take 96) :: toBatches ((x :: xs).drop 96)
termination_by l => l.length
decreasing_by simp; omega

/-- `embed`, main.py lines 1789-1872: empty input short-circuits; blank
texts are filtered out (line 1839); the remainder is processed in batches
of at most 96, one service call per batch in order, concatenating the
per-batch results.  The Cohere service is the oracle `svc`; per its
contract (one vector per input, in order) a batch call returns
`batch.map svc`. -/
def embed (svc : List Char → List ℚ) (texts : List (List Char)) :
    List (List ℚ) :=
  if texts = [] then []
  else if texts.filter notBlank = [] then []
  else ((toBatches (texts.filter notBlank)).map (fun b => b.map svc)).flatten

/-! ## main.py — create_collection (lines 386-456) -/

/-- Qdrant distance metrics, as mapped by main.py lines 426-430. -/
inductive Distance
  | cosine
  | euclid
  | dot
deriving DecidableEq, Repr

/-- The `distance_map` dict, main.py lines 426-430. -/
def distance_map : List (List Char × Distance) :=
  [("Cosine".toList, .cosine), ("Euclidean".toList, .euclid),
   ("Dot".toList, .dot)]

/-- The pure validation-and-mapping prefix of `create_collection`, main.py
lines 401-448: parameter validation raises `ValueError`; an unsupported
distance string is NOT an error — it is replaced by `"Cosine"` with only a
log warning (lines 432-434) — and the returned pair is the `VectorParams`
the function would create the collection with.  The Qdrant client calls
that follow (lines 436-452) are external I/O. -/
def create_collection_config (collection_name : List Char)
    (vector_size : Int) (distance : List Char) :
    Except (List Char) (Int × Distance) :=
  if pyStrip collection_name = [] then
    .error "collection_name cannot be empty".toList
  else if vector_size ≤ 0 then .error "vector_size must be positive".toList
  else if 65536 < vector_size then
    .error "vector_size exceeds Qdrant maximum of 65536".toList
  else if pyStrip distance = [] then .error "distance cannot be empty".toList
  else
    let d := if (distance_map.lookup distance).isSome then distance
             else "Cosine".toList
    .ok (vector_size, (distance_map.lookup d).getD .cosine)

/-! ## main.py — ingestion point ids and upsert (lines 2255-2375, 497-529) -/

/-- A successfully extracted document: its source url and content. -/
structure IngestDoc where
  url : List Char
  content : List Char
deriving DecidableEq, Repr

/-- The stored payload fields relevant to identity (main.py lines 502-509). -/
structure StoredPayload where
  url : List Char
  content : List Char
  chunk_index : Nat
deriving DecidableEq, Repr

/-- The chunk point id, main.py lines 2348-2349:
`md5(doc.url + str(chunk_idx) + chunk[:100])` as a uuid.  The digest is the
abstract `hash` oracle; the id is a pure function of the url, the chunk
index and the first 100 characters of the chunk. -/
def chunkPointId (hash : List Char → List Char) (url : List Char)
    (idx : Nat) (chunk : List Char) : List Char :=
  hash (url ++ natRepr idx ++ chunk.take 100)

/-- The document point id for the unchunked path, main.py lines 2262-2263:
`md5(url + content[:100])` as a uuid. -/
def docPointId (hash : List Char → List Char) (url content : List Char) :
    List Char :=
  hash (url ++ content.take 100)

/-- The points one document contributes, main.py lines 2300-2368: oversized
documents are skipped; a document whose chunking returns just itself is
stored once under its document id with `chunk_index` 0 (lines 2315-2330 and
the `getattr` default at line 508); otherwise each chunk is stored under its
chunk id with its index (lines 2344-2368). -/
def docPoints (hash : List Char → List Char) (size overlap : Int)
    (d : IngestDoc) : List (List Char × StoredPayload) :=
  if 500000 < d.content.length then []
  else
    match chunk_text d.content size overlap with
    | .error _ => []
    | .ok chunks =>
      if chunks = [d.content] then
        [(docPointId hash d.url d.content, ⟨d.url, d.content, 0⟩)]
      else
        chunks.enum.map fun p =>
          (chunkPointId hash d.url p.1 p.2, ⟨d.url, p.2, p.1⟩)

/-- All points of one ingestion run over the extracted documents. -/
def ingestPoints (hash : List Char → List Char) (size overlap : Int)
    (docs : List IngestDoc) : List (List Char × StoredPayload) :=
  docs.flatMap (docPoints hash size overlap)

/-- One Qdrant upsert (main.py lines 513-516 and 1020-1023): overwrite the
point with the same id if present, else add it. -/
def upsertPoint (store : List (List Char × StoredPayload))
    (p : List Char × StoredPayload) : List (List Char × StoredPayload) :=
  if store.any (fun q => q.1 = p.1) then
    store.map (fun q => if q.1 = p.1 then p else q)
  else store ++ [p]

/-- Upsert a run's points in order. -/
def upsertAll (store : List (List Char × StoredPayload))
    (pts : List (List Char × StoredPayload)) :
    List (List Char × StoredPayload) :=
  pts.foldl upsertPoint store

/-- The ids present in a collection. -/
def pointIds (store : List (List Char × StoredPayload)) : List (List Char) :=
  store.map Prod.fst

/-! ## retrieve.py — similarity_search (lines 511-618) -/

/-- The exception classes `similarity_search` raises: `ValueError` for
parameter validation (retrieve.py lines 542-557, outside the `try`), and
`ConnectionError` wrapping anything raised inside the `try`
(lines 615-618). -/
inductive PyErr
  | valueError (msg : List Char)
  | connectionError (msg : List Char)
deriving DecidableEq, Repr

/-- `RetrievalResult` of retrieve.py, lines 190-206 (a namespace of its own:
retrieve.py and agent.py each define a class of this name). -/
structure SearchHit where
  id : List Char
  score : ℚ
  payload : PointPayload
  retrieval_time_ms : ℚ := 0
deriving DecidableEq, Repr

/-- The dimension-mismatch message, retrieve.py lines 570-574. -/
def dimMismatchMsg (got expected : Nat) : List Char :=
  "Query vector dimension (".toList ++ natRepr got ++
  ") doesn't match collection dimension (".toList ++ natRepr expected ++
  ")".toList

/-- The `ConnectionError` wrapper message, retrieve.py line 616. -/
def searchFailMsg (collection_name inner : List Char) : List Char :=
  "Failed to perform similarity search in collection '".toList ++
  collection_name ++ "': ".toList ++ inner

/-- `similarity_search`, retrieve.py lines 511-618: validate parameters
(raising `ValueError`), then inside the `try`: read the collection's
configured vector size and fail with a dimension-mismatch error when the
query vector's length differs, BEFORE the search call — the `search` oracle
is consulted only after the check passes.  Anything raised inside the `try`
is re-raised as `ConnectionError` with a wrapping message. -/
def similarity_search (getCol : Except (List Char) CollectionView)
    (search : List ℚ → Int → Option ℚ → List ScoredPoint)
    (collection_name : List Char) (query_vector : List ℚ)
    (top_k : Int) (score_threshold : Option ℚ) :
    Except PyErr (List SearchHit) :=
  if pyStrip collection_name = [] then
    .error (.valueError "collection_name must be a non-empty string".toList)
  else if query_vector = [] then
    .error (.valueError "query_vector must be a non-empty list".toList)
  else if top_k ≤ 0 ∨ 100 < top_k then
    .error (.valueError "top_k must be an integer between 1 and 100".toList)
  else if (match score_threshold with
           | some t => decide (t < 0) || decide (1 < t)
           | none => false) then
    .error (.valueError "score_threshold must be between 0.0 and 1.0".toList)
  else
    match getCol with
    | .error e => .error (.connectionError (searchFailMsg collection_name e))
    | .ok col =>
      if query_vector.length ≠ col.size then
        .error (.connectionError (searchFailMsg collection_name
          (dimMismatchMsg query_vector.length col.size)))
      else
        .ok ((search query_vector top_k score_threshold).map fun r =>
          { id := r.id, score := r.score, payload := r.payload })

/-- Propositional equality on `Except` values is decidable componentwise
(used by the closed evaluation theorems below). -/
instance {ε α} [DecidableEq ε] [DecidableEq α] : DecidableEq (Except ε α)
  | .ok a, .ok b =>
      if h : a = b then .isTrue (by rw [h])
      else .isFalse (by intro hh; cases hh; exact h rfl)
  | .ok _, .error _ => .isFalse (by intro h; cases h)
  | .error _, .ok _ => .isFalse (by intro h; cases h)
  | .error e, .error f =>
      if h : e = f then .isTrue (by rw [h])
      else .isFalse (by intro hh; cases hh; exact h rfl)

/-! ## Concrete instances used by the closed theorems below -/

/-- A violating `AgentResponse`: `SUCCESS` with no answer and no sources.
The dataclass accepts it — nothing rejects the construction. -/
def badResponse : AgentResponse :=
  { query_id := "q-bad".toList, status := .success }

/-- A demo embedding of length 3 (the collection below is configured with
dimension 1024). -/
def demoEmbedding : List ℚ := [1, 0, 0]

/-- A stored chunk content longer than the agent's 50-character noise
filter. -/
def demoContent : List Char :=
  ("Humanoid robots integrate perception, planning and control into one " ++
   "embodied, autonomous system.").toList

/-- A search hit as Qdrant would return it. -/
def demoPoint : ScoredPoint :=
  { id := "pt-1".toList, score := 9/10,
    payload := { title := some "Introduction".toList,
                 url := some "https://example.org/intro".toList,
                 chunk_index := some 0,
                 content := demoContent, content_preview := [] } }

/-- A concrete agent environment: collection of dimension 1024 with 12
points, an embedding oracle returning `demoEmbedding` (length 3), a search
oracle returning `demoPoint`, and a healthy chat oracle. -/
def demoEnv : AgentEnv :=
  { model := "command-r-plus-08-2024".toList, temperature := 3/10,
    top_k := 5, score_threshold := 1/2,
    collection_name := "rag_embedding".toList, freshId := "qid-1".toList,
    getCollection := .ok { size := 1024, points_count := 12 },
    embedQuery := fun _ => .ok demoEmbedding,
    searchPoints := fun _ _ _ => .ok [demoPoint],
    chat := fun _ _ =>
      .ok "Humanoid robots are robots with a human-like body plan.".toList }

/-- `demoEnv` with a failing Generation Service. -/
def envGenFail : AgentEnv :=
  { demoEnv with chat := fun _ _ => .error "service down".toList }

/-- The chunk `retrieve_information` builds from `demoPoint`. -/
def demoChunk : TextChunk :=
  { chunk_id := "pt-1".toList, text := demoContent,
    metadata := { section_title := some "Introduction".toList,
                  url := some "https://example.org/intro".toList,
                  chunk_index := some 0 },
    similarity_score := some (9/10) }

/-- The retrieval result of `demoEnv` (and `envGenFail`) on the query
"what is robotics". -/
def rrDemo : RetrievalResult :=
  { query := { text := "what is robotics".toList, query_id := "qid-1".toList },
    chunks := [demoChunk], retrieval_time_ms := 0, total_candidates := 12,
    filtered_count := 1,
    parameters := { top_k := 5, score_threshold := 1/2,
                    collection_name := "rag_embedding".toList } }

/-- The conversational response `demoEnv` produces on "hi". -/
def demoConvResponse : AgentResponse :=
  { query_id := "qid-1".toList, status := .conversational,
    answer := some greetingResponseText, confidence := some ⟨1, 1, 1, 1⟩,
    sources := [], metadata := some (mkResponseMetadata demoEnv) }

/-- A chunk with the maximal similarity score. -/
def chunkHigh : TextChunk := { demoChunk with similarity_score := some 1 }

/-- A chunk with a zero similarity score (which Python truthiness filters
out of the max computation). -/
def chunkLow : TextChunk := { demoChunk with similarity_score := some 0 }

/-! ## Theorems -/

/-- C2.  Evaluation of `_is_greeting_or_low_intent` at the spec's four test
points.  The first three agree with the spec; on "hello world programming"
the code returns `true` (the phrase starts with the pattern "hello" plus a
space), while the spec, and the repository's own test file
test_query_classification.py (lines 35-36), require `false`. -/
theorem low_intent_classifier_values :
    isGreetingOrLowIntent "hi".toList = true ∧
    isGreetingOrLowIntent "who are you".toList = true ∧
    isGreetingOrLowIntent "what is robotics".toList = false ∧
    isGreetingOrLowIntent "hello world programming".toList = true := by
  decide

/-- C1 counterexample.  The claim says a violating construction fails at
construction time; but `AgentResponse` has no validation whatsoever, so the
instance `badResponse` — `SUCCESS` with a null answer and an empty sources
list — is constructed without any error and violates the invariants. -/
theorem agentResponse_invariant_not_enforced :
    badResponse.status = .success ∧ badResponse.answer = none ∧
    badResponse.sources = [] ∧ ¬ responseInvariant badResponse := by
  refine ⟨rfl, rfl, rfl, ?_⟩
  decide

/-- C4 counterexample.  `chunk_text` returns `[]` — not a single-element
sequence equal to the whole text — for the empty text and for
whitespace-only text (main.py lines 1744-1746); and it rejects the valid
parameter pair `(20000, 0)` because of the extra `chunk_size > 10000` check
(main.py lines 1764-1765). -/
theorem chunk_text_blank_or_oversize_edge :
    chunk_text [] 1000 100 = .ok [] ∧
    chunk_text " ".toList 1000 100 = .ok [] ∧
    chunk_text "a".toList 20000 0 =
      .error "chunk_size seems too large, maximum recommended is 10000".toList := by
  decide

/-- C5 counterexample.  Invalid configuration is not always a call-time
error: blank text short-circuits `chunk_text` before any parameter
validation, so `chunk_size = -5` passes silently (main.py line 1744 comes
before line 1751); and an unsupported distance metric does not fail
collection creation — it is silently replaced by the default `Cosine`
(main.py lines 432-434). -/
theorem invalid_config_not_always_fatal :
    chunk_text [] (-5) 2 = .ok [] ∧
    create_collection_config "rag_embedding".toList 1024 "Manhattan".toList =
      .ok (1024, .cosine) := by
  decide

/-- C8.  `overall` is the fixed weighted sum with weights
0.35/0.25/0.25/0.15; `level` buckets it at 0.8 and 0.6; and for two
retrieval results with identical non-zero chunk counts, the one with the
higher maximum similarity score has the greater-or-equal overall confidence
(agent.py lines 105-127 and 406-411: coverage and entailment are the fixed
0.8 whenever chunks exist, lexical overlap stays 0). -/
theorem confidence_weighted_sum_monotone :
    (∀ cs : ConfidenceScore,
      cs.overall = 35/100 * cs.retrieval_quality + 25/100 * cs.coverage_score
        + 25/100 * cs.entailment_score + 15/100 * cs.lexical_overlap) ∧
    (∀ cs : ConfidenceScore,
      (8/10 ≤ cs.overall → cs.level = "high".toList) ∧
      (6/10 ≤ cs.overall ∧ cs.overall < 8/10 → cs.level = "medium".toList) ∧
      (cs.overall < 6/10 → cs.level = "low".toList)) ∧
    (∀ c1 c2 : List TextChunk, c1.length = c2.length → c1 ≠ [] →
      maxSimilarity c2 ≤ maxSimilarity c1 →
      (confidenceOf c2).overall ≤ (confidenceOf c1).overall) := by
  refine ⟨fun cs => rfl, fun cs => ⟨?_, ?_, ?_⟩, ?_⟩
  · intro h
    rw [ConfidenceScore.level, if_pos h]
  · rintro ⟨h1, h2⟩
    rw [ConfidenceScore.level, if_neg (not_le.mpr h2), if_pos h1]
  · intro h
    rw [ConfidenceScore.level, if_neg (not_le.mpr (h.trans (by norm_num))),
      if_neg (not_le.mpr h)]
  · intro c1 c2 hlen h1 h2
    have h2ne : c2 ≠ [] := by
      intro hnil
      apply h1
      rw [hnil] at hlen
      exact List.length_eq_zero.mp hlen
    rw [confidenceOf, confidenceOf, if_neg h1, if_neg h2ne]
    unfold ConfidenceScore.overall
    simp only
    linarith [mul_le_mul_of_nonneg_left h2 (show (0:ℚ) ≤ 35/100 by norm_num)]

/-- C8 witness: the monotonicity part at two concrete one-chunk lists, and
the level bucketing at the all-ones score. -/
theorem confidence_weighted_sum_monotone_witness :
    (confidenceOf [chunkLow]).overall ≤ (confidenceOf [chunkHigh]).overall ∧
    (ConfidenceScore.mk 1 1 1 1).level = "high".toList :=
  ⟨confidence_weighted_sum_monotone.2.2 [chunkHigh] [chunkLow] rfl
      (by decide) (by decide),
   (confidence_weighted_sum_monotone.2.1 ⟨1, 1, 1, 1⟩).1 (by norm_num [ConfidenceScore.overall])⟩

/-- C5 (amended).  For non-blank text, every invalid `(chunk_size,
chunk_overlap)` pair makes `chunk_text` fail with a `ValueError` rather
than being clamped (main.py lines 1751-1761); but `create_collection`, with
otherwise valid parameters, silently substitutes the default `Cosine` for
an unsupported non-blank distance string instead of failing (main.py
lines 432-434; only blank metric strings raise). -/
theorem config_validation_spec :
    (∀ (text : List Char) (size overlap : Int),
      text.all pyIsSpace = false →
      size ≤ 0 ∨ overlap < 0 ∨ size ≤ overlap →
      ∃ msg, chunk_text text size overlap = .error msg) ∧
    (∀ (name d : List Char) (vsize : Int),
      pyStrip name ≠ [] → 0 < vsize → vsize ≤ 65536 → pyStrip d ≠ [] →
      distance_map.lookup d = none →
      create_collection_config name vsize d = .ok (vsize, .cosine)) := by
  constructor
  · intro text size overlap h1 h2
    rw [chunk_text]
    rw [if_neg (by simp [h1])]
    by_cases hs : size ≤ 0
    · exact ⟨_, by rw [if_pos hs]⟩
    · rw [if_neg hs]
      by_cases hov : overlap < 0
      · exact ⟨_, by rw [if_pos hov]⟩
      · rw [if_neg hov]
        have hso : size ≤ overlap := by
          rcases h2 with h | h | h
          · omega
          · omega
          · exact h
        exact ⟨_, by rw [if_pos hso]⟩
  · intro name d vsize hname hpos hmax hd hlook
    rw [create_collection_config, if_neg (by simpa using hname),
      if_neg (by omega), if_neg (by omega), if_neg (by simpa using hd)]
    simp only [hlook, Option.isSome_none, Bool.false_eq_true, if_false]
    rfl

/-- C5 witness: a concrete invalid pair is rejected, and a concrete
unsupported metric is defaulted. -/
theorem config_validation_spec_witness :
    (∃ msg, chunk_text "abc".toList 10 10 = .error msg) ∧
    create_collection_config "rag_embedding".toList 1024 "Manhattan".toList =
      .ok (1024, .cosine) :=
  ⟨config_validation_spec.1 "abc".toList 10 10 (by decide) (by omega),
   config_validation_spec.2 "rag_embedding".toList "Manhattan".toList 1024
     (by decide) (by omega) (by omega) (by decide) (by decide)⟩

/-- Replacing a point in place never changes the id column. -/
theorem pointIds_map_replace (s : List (List Char × StoredPayload))
    (p : List Char × StoredPayload) :
    pointIds (s.map (fun q => if q.1 = p.1 then p else q)) = pointIds s := by
  induction s with
  | nil => rfl
  | cons a t ih =>
      simp only [pointIds, List.map_cons] at *
      by_cases h : a.1 = p.1
      · simp [h, ih]
      · simp [h, ih]

/-- One upsert either keeps the id column or appends the new id. -/
theorem pointIds_upsertPoint (s : List (List Char × StoredPayload))
    (p : List Char × StoredPayload) :
    pointIds (upsertPoint s p) =
      if p.1 ∈ pointIds s then pointIds s else pointIds s ++ [p.1] := by
  unfold upsertPoint
  by_cases h : p.1 ∈ pointIds s
  · rw [if_pos h]
    have hany : s.any (fun q => q.1 = p.1) = true := by
      rw [List.any_eq_true]
      obtain ⟨q, hq, hq2⟩ := List.mem_map.mp h
      exact ⟨q, hq, by simp [hq2]⟩
    simp only [hany, if_true]
    exact pointIds_map_replace s p
  · rw [if_neg h]
    have hany : s.any (fun q => q.1 = p.1) = false := by
      rw [← Bool.not_eq_true, List.any_eq_true]
      rintro ⟨q, hq, hq2⟩
      exact h (List.mem_map.mpr ⟨q, hq, by simpa using hq2⟩)
    simp only [hany, Bool.false_eq_true, if_false]
    simp [pointIds]

/-- After an upsert the upserted id is present. -/
theorem mem_pointIds_upsertPoint_self (s : List (List Char × StoredPayload))
    (p : List Char × StoredPayload) : p.1 ∈ pointIds (upsertPoint s p) := by
  rw [pointIds_upsertPoint]
  by_cases h : p.1 ∈ pointIds s <;> simp [h]

/-- Upserting never removes ids. -/
theorem mem_pointIds_upsertPoint_mono {x : List Char}
    {s : List (List Char × StoredPayload)} {p : List Char × StoredPayload}
    (h : x ∈ pointIds s) : x ∈ pointIds (upsertPoint s p) := by
  rw [pointIds_upsertPoint]
  by_cases hh : p.1 ∈ pointIds s <;> simp [hh, h]

/-- A batch upsert never removes ids. -/
theorem mem_pointIds_upsertAll_mono {x : List Char} :
    ∀ (ps : List (List Char × StoredPayload)) s,
      x ∈ pointIds s → x ∈ pointIds (upsertAll s ps) := by
  intro ps
  induction ps with
  | nil => exact fun s h => h
  | cons a t ih => exact fun s h => ih _ (mem_pointIds_upsertPoint_mono h)

/-- Every id upserted by a batch is present afterwards. -/
theorem mem_pointIds_upsertAll_of_mem :
    ∀ (ps : List (List Char × StoredPayload)) s p,
      p ∈ ps → p.1 ∈ pointIds (upsertAll s ps) := by
  intro ps
  induction ps with
  | nil => intro s p hp; simp at hp
  | cons a t ih =>
      intro s p hp
      rcases List.mem_cons.mp hp with h | h
      · subst h
        exact mem_pointIds_upsertAll_mono t _ (mem_pointIds_upsertPoint_self s p)
      · exact ih _ p h

/-- A batch upsert of already-present ids leaves the id column unchanged. -/
theorem pointIds_upsertAll_of_subset :
    ∀ (ps : List (List Char × StoredPayload)) s,
      (∀ p ∈ ps, p.1 ∈ pointIds s) → pointIds (upsertAll s ps) = pointIds s := by
  intro ps
  induction ps with
  | nil => exact fun s _ => rfl
  | cons a t ih =>
      intro s h
      show pointIds (upsertAll (upsertPoint s a) t) = pointIds s
      rw [ih _ (fun p hp =>
        mem_pointIds_upsertPoint_mono (h p (List.mem_cons_of_mem _ hp)))]
      rw [pointIds_upsertPoint, if_pos (h a (List.mem_cons_self _ _))]

/-- C6.  Chunk ids depend only on the source url, the chunk index and the
first 100 characters of the chunk (main.py lines 2348-2349 and 2262-2263 —
the hash input is exactly their concatenation, with no time or randomness);
consequently a second ingestion run over identical extracted content
upserts the very same ids, leaving the stored id set and the final
`points_count` unchanged. -/
theorem ingestion_ids_deterministic_idempotent :
    (∀ (hash : List Char → List Char) (url : List Char) (idx : Nat)
       (c c' : List Char), c.take 100 = c'.take 100 →
       chunkPointId hash url idx c = chunkPointId hash url idx c') ∧
    (∀ (hash : List Char → List Char) (url c c' : List Char),
       c.take 100 = c'.take 100 →
       docPointId hash url c = docPointId hash url c') ∧
    (∀ (hash : List Char → List Char) (size overlap : Int)
       (docs : List IngestDoc) (store : List (List Char × StoredPayload)),
       pointIds (upsertAll (upsertAll store (ingestPoints hash size overlap docs))
           (ingestPoints hash size overlap docs)) =
         pointIds (upsertAll store (ingestPoints hash size overlap docs))) ∧
    (∀ (hash : List Char → List Char) (size overlap : Int)
       (docs : List IngestDoc) (store : List (List Char × StoredPayload)),
       (upsertAll (upsertAll store (ingestPoints hash size overlap docs))
           (ingestPoints hash size overlap docs)).length =
         (upsertAll store (ingestPoints hash size overlap docs)).length) := by
  have key : ∀ (hash : List Char → List Char) (size overlap : Int)
      (docs : List IngestDoc) (store : List (List Char × StoredPayload)),
      pointIds (upsertAll (upsertAll store (ingestPoints hash size overlap docs))
          (ingestPoints hash size overlap docs)) =
        pointIds (upsertAll store (ingestPoints hash size overlap docs)) := by
    intro hash size overlap docs store
    apply pointIds_upsertAll_of_subset
    intro p hp
    exact mem_pointIds_upsertAll_of_mem _ _ p hp
  refine ⟨?_, ?_, key, ?_⟩
  · intro hash url idx c c' hc
    unfold chunkPointId
    rw [hc]
  · intro hash url c c' hc
    unfold docPointId
    rw [hc]
  · intro hash size overlap docs store
    have h := congrArg List.length (key hash size overlap docs store)
    simpa [pointIds] using h

/-- C6 witness: the two determinism parts at concrete 101-character chunks
differing only beyond position 100 (the idempotence parts are
hypothesis-free). -/
theorem ingestion_ids_deterministic_idempotent_witness :
    chunkPointId id "https://e.org/a".toList 2 (List.replicate 100 'a' ++ ['b'])
      = chunkPointId id "https://e.org/a".toList 2
          (List.replicate 100 'a' ++ ['c']) ∧
    docPointId id "https://e.org/a".toList (List.replicate 100 'a' ++ ['b'])
      = docPointId id "https://e.org/a".toList
          (List.replicate 100 'a' ++ ['c']) :=
  ⟨ingestion_ids_deterministic_idempotent.1 id _ 2 _ _ (by decide),
   ingestion_ids_deterministic_idempotent.2.1 id _ _ _ (by decide)⟩

/-- Concatenating the batches gives back the batched list. -/
theorem toBatches_flatten : ∀ l : List (List Char), (toBatches l).flatten = l := by
  intro l
  induction l using toBatches.induct with
  | case1 => rw [toBatches]; rfl
  | case2 x xs ih =>
      rw [toBatches]
      simp only [List.flatten_cons]
      rw [ih]
      exact List.take_append_drop 96 (x :: xs)

/-- Every batch holds at most 96 texts. -/
theorem length_le_of_mem_toBatches :
    ∀ (l : List (List Char)) b, b ∈ toBatches l → b.length ≤ 96 := by
  intro l
  induction l using toBatches.induct with
  | case1 => intro b hb; simp [toBatches] at hb
  | case2 x xs ih =>
      intro b hb
      rw [toBatches] at hb
      rcases List.mem_cons.mp hb with h | h
      · subst h
        simp only [List.length_take]
        omega
      · exact ih b h

/-- Filtering out a witnessed element strictly shrinks a list. -/
theorem length_filter_lt_of_exists (p : List Char → Bool) :
    ∀ l : List (List Char), (∃ x ∈ l, p x = false) →
      (l.filter p).length < l.length := by
  intro l
  induction l with
  | nil => rintro ⟨x, hx, _⟩; simp at hx
  | cons a t ih =>
      rintro ⟨x, hx, hpx⟩
      rcases List.mem_cons.mp hx with h | h
      · subst h
        rw [List.filter_cons, hpx]
        simp only [Bool.false_eq_true, if_false, List.length_cons]
        exact Nat.lt_succ_of_le (List.length_filter_le p t)
      · rw [List.filter_cons]
        by_cases hpa : p a = true
        · rw [if_pos hpa]
          simp only [List.length_cons]
          exact Nat.succ_lt_succ (ih ⟨x, h, hpx⟩)
        · rw [if_neg hpa]
          exact Nat.lt_succ_of_lt (ih ⟨x, h, hpx⟩)

/-- C7.  `embed` filters out blank texts, splits the rest into consecutive
batches of at most 96, issues one service call per batch in order and
concatenates: the output is exactly one vector per non-blank input, in the
non-blank inputs' relative order, and strictly fewer vectors than inputs
whenever a blank input was present (main.py lines 1839-1863). -/
theorem embed_batching_spec :
    ∀ (svc : List Char → List ℚ) (texts : List (List Char)),
      embed svc texts = (texts.filter notBlank).map svc ∧
      (toBatches (texts.filter notBlank)).flatten = texts.filter notBlank ∧
      (∀ b ∈ toBatches (texts.filter notBlank), b.length ≤ 96) ∧
      ((∃ t ∈ texts, notBlank t = false) →
        (embed svc texts).length < texts.length) := by
  intro svc texts
  have hmain : embed svc texts = (texts.filter notBlank).map svc := by
    rw [embed]
    by_cases h0 : texts = []
    · rw [if_pos h0, h0]
      rfl
    · rw [if_neg h0]
      by_cases hv : texts.filter notBlank = []
      · rw [if_pos hv, hv]
        rfl
      · rw [if_neg hv]
        rw [← List.map_flatten, toBatches_flatten]
  refine ⟨hmain, toBatches_flatten _,
    fun b hb => length_le_of_mem_toBatches _ b hb, ?_⟩
  intro hex
  rw [hmain, List.length_map]
  exact length_filter_lt_of_exists notBlank texts hex

/-- C7 witness: on one non-blank and one blank input the output is one
vector, fewer than the two inputs. -/
theorem embed_batching_spec_witness :
    embed (fun _ => [1]) ["a".toList, " ".toList] =
      (["a".toList, " ".toList].filter notBlank).map (fun _ => [1]) ∧
    (embed (fun _ => ([1] : List ℚ)) ["a".toList, " ".toList]).length < 2 :=
  ⟨(embed_batching_spec (fun _ => [1]) ["a".toList, " ".toList]).1,
   (embed_batching_spec (fun _ => [1]) ["a".toList, " ".toList]).2.2.2
     ⟨" ".toList, by decide, by decide⟩⟩

/-- The chunk loop emits at least one chunk when it starts inside the
text. -/
theorem chunkLoop_ne_nil (text : List Char) (size overlap start : Nat)
    (h1 : start < text.length) :
    ∀ fuel, fuel ≠ 0 → chunkLoop text size overlap start fuel ≠ [] := by
  intro fuel hf
  cases fuel with
  | zero => exact absurd rfl hf
  | succ n =>
      rw [chunkLoop, if_pos h1]
      by_cases hend : text.length ≤ start + size
      · rw [if_pos hend]; simp
      · rw [if_neg hend]; simp

/-- A text no longer than the window is a single chunk (main.py
lines 1770-1778: the first iteration already covers the text). -/
theorem chunkLoop_single (text : List Char) (size overlap : Nat)
    (h0 : 0 < text.length) (hle : text.length ≤ size) :
    ∀ fuel, fuel ≠ 0 → chunkLoop text size overlap 0 fuel = [text] := by
  intro fuel hf
  cases fuel with
  | zero => exact absurd rfl hf
  | succ n =>
      rw [chunkLoop, if_pos h0, if_pos (by omega)]
      simp

/-- Dropping the overlap from every chunk and concatenating yields the
text's tail from `start + overlap` on. -/
theorem chunkLoop_map_drop_flatten (text : List Char) (size overlap : Nat)
    (ho : overlap < size) :
    ∀ (fuel start : Nat), start < text.length →
      text.length ≤ start + fuel * (size - overlap) →
      ((chunkLoop text size overlap start fuel).map (List.drop overlap)).flatten
        = text.drop (start + overlap) := by
  intro fuel
  induction fuel with
  | zero =>
      intro start h1 h2
      exfalso
      simp only [Nat.zero_mul, Nat.add_zero] at h2
      omega
  | succ n ih =>
      intro start h1 h2
      rw [chunkLoop, if_pos h1]
      by_cases hend : text.length ≤ start + size
      · rw [if_pos hend]
        simp only [List.map_cons, List.map_nil, List.flatten_cons,
          List.flatten_nil, List.append_nil]
        rw [List.drop_drop]
      · rw [if_neg hend]
        have hlt : start + (size - overlap) < text.length := by omega
        have hfuel : text.length ≤ start + (size - overlap) + n * (size - overlap) := by
          have hmul : (n + 1) * (size - overlap)
              = (size - overlap) + n * (size - overlap) := by ring
          omega
        simp only [List.map_cons, List.flatten_cons]
        rw [ih (start + (size - overlap)) hlt hfuel]
        have e1 : List.drop overlap (List.take size (List.drop start text))
            = List.take (size - overlap) (List.drop (start + overlap) text) := by
          rw [List.drop_take, List.drop_drop]
        have e2 : List.drop (start + (size - overlap) + overlap) text
            = List.drop (size - overlap) (List.drop (start + overlap) text) := by
          rw [List.drop_drop]
          congr 1
          omega
        rw [e1, e2]
        exact List.take_append_drop _ _

/-- Each chunk is the `size`-wide window at its start position (the last
window is clipped by the text's end, which `take` models exactly). -/
theorem chunkLoop_getD (text : List Char) (size overlap : Nat)
    (ho : overlap < size) :
    ∀ (fuel start : Nat), start < text.length →
      text.length ≤ start + fuel * (size - overlap) →
      ∀ i, i < (chunkLoop text size overlap start fuel).length →
        (chunkLoop text size overlap start fuel).getD i []
          = (text.drop (start + i * (size - overlap))).take size := by
  intro fuel
  induction fuel with
  | zero =>
      intro start h1 h2
      exfalso
      simp only [Nat.zero_mul, Nat.add_zero] at h2
      omega
  | succ n ih =>
      intro start h1 h2 i hi
      rw [chunkLoop, if_pos h1] at hi ⊢
      by_cases hend : text.length ≤ start + size
      · rw [if_pos hend] at hi ⊢
        have hi0 : i = 0 := by
          simp only [List.length_singleton] at hi
          omega
        subst hi0
        simp only [Nat.zero_mul, Nat.add_zero, List.getD_cons_zero]
        rw [List.take_of_length_le (by rw [List.length_drop]; omega)]
      · rw [if_neg hend] at hi ⊢
        cases i with
        | zero =>
            simp only [Nat.zero_mul, Nat.add_zero, List.getD_cons_zero]
        | succ j =>
            have hlt : start + (size - overlap) < text.length := by omega
            have hfuel : text.length
                ≤ start + (size - overlap) + n * (size - overlap) := by
              have hmul : (n + 1) * (size - overlap)
                  = (size - overlap) + n * (size - overlap) := by ring
              omega
            have hj : j < (chunkLoop text size overlap
                (start + (size - overlap)) n).length := by
              simpa using hi
            rw [List.getD_cons_succ]
            rw [ih (start + (size - overlap)) hlt hfuel j hj]
            have harr : start + (size - overlap) + j * (size - overlap)
                = start + (j + 1) * (size - overlap) := by
              have hmul : (j + 1) * (size - overlap)
                  = j * (size - overlap) + (size - overlap) := by ring
              omega
            rw [harr]

/-- Every chunk except the last starts a full `size` before the text's
end. -/
theorem chunkLoop_nonlast_lt (text : List Char) (size overlap : Nat)
    (ho : overlap < size) :
    ∀ (fuel start : Nat), start < text.length →
      text.length ≤ start + fuel * (size - overlap) →
      ∀ i, i + 1 < (chunkLoop text size overlap start fuel).length →
        start + i * (size - overlap) + size < text.length := by
  intro fuel
  induction fuel with
  | zero =>
      intro start h1 h2
      exfalso
      simp only [Nat.zero_mul, Nat.add_zero] at h2
      omega
  | succ n ih =>
      intro start h1 h2 i hi
      rw [chunkLoop, if_pos h1] at hi
      by_cases hend : text.length ≤ start + size
      · rw [if_pos hend] at hi
        simp only [List.length_singleton] at hi
        omega
      · rw [if_neg hend] at hi
        cases i with
        | zero =>
            simp only [Nat.zero_mul, Nat.add_zero]
            omega
        | succ j =>
            have hlt : start + (size - overlap) < text.length := by omega
            have hfuel : text.length
                ≤ start + (size - overlap) + n * (size - overlap) := by
              have hmul : (n + 1) * (size - overlap)
                  = (size - overlap) + n * (size - overlap) := by ring
              omega
            have hj : j + 1 < (chunkLoop text size overlap
                (start + (size - overlap)) n).length := by
              simpa using hi
            have hb := ih (start + (size - overlap)) hlt hfuel j hj
            have hmul : (j + 1) * (size - overlap)
                = j * (size - overlap) + (size - overlap) := by ring
            omega

/-- C4 (amended).  For every text containing a non-whitespace character and
every parameter pair with `0 < chunk_size ≤ 10000` and
`0 ≤ chunk_overlap < chunk_size`, `chunk_text` returns exactly the windows
of the text at positions 0, step, 2*step, ... (step = size - overlap),
each of full `chunk_size` length except the last, which runs to the end
unpadded; keeping the first chunk and dropping the first `chunk_overlap`
characters of every later chunk reconstructs the text exactly; and a text
of length at most `chunk_size` yields the single chunk equal to the whole
text.  (The claim's unrestricted version fails: blank text returns `[]`
before the loop, and `chunk_size > 10000` is rejected — see the
counterexample.) -/
theorem chunk_text_windows_spec (text : List Char) (s o : Nat)
    (hs : 0 < s) (hs10 : s ≤ 10000) (ho : o < s)
    (hnb : text.all pyIsSpace = false) :
    ∃ chunks, chunk_text text (s : Int) (o : Int) = .ok chunks ∧
      chunks ≠ [] ∧
      (∀ i, i < chunks.length →
        chunks.getD i [] = (text.drop (i * (s - o))).take s) ∧
      (∀ i, i + 1 < chunks.length → (chunks.getD i []).length = s) ∧
      joinOverlap o chunks = text ∧
      (text.length ≤ s → chunks = [text]) := by
  have htext : text ≠ [] := by
    intro h
    rw [h] at hnb
    simp at hnb
  have hlen : 0 < text.length := List.length_pos.mpr htext
  have hstep : 0 < s - o := by omega
  have hfuel : text.length ≤ 0 + text.length * (s - o) := by
    have := Nat.le_mul_of_pos_right text.length hstep
    omega
  refine ⟨chunkLoop text s o 0 text.length, ?_, ?_, ?_, ?_, ?_, ?_⟩
  · rw [chunk_text, if_neg (by simp [hnb]), if_neg (by omega),
      if_neg (by omega), if_neg (by omega), if_neg (by omega)]
    have htn : ((s : Int).toNat) = s := by omega
    have hton : ((o : Int).toNat) = o := by omega
    rw [htn, hton]
  · exact chunkLoop_ne_nil text s o 0 hlen text.length (by omega)
  · intro i hi
    have h := chunkLoop_getD text s o ho text.length 0 hlen hfuel i hi
    simpa using h
  · intro i hi
    have hb := chunkLoop_nonlast_lt text s o ho text.length 0 hlen hfuel i hi
    have hg := chunkLoop_getD text s o ho text.length 0 hlen hfuel i
      (Nat.lt_of_succ_lt hi)
    rw [hg, List.length_take, List.length_drop]
    simp only [Nat.zero_add] at hb
    omega
  · by_cases hsmall : text.length ≤ s
    · rw [chunkLoop_single text s o hlen hsmall text.length (by omega)]
      simp [joinOverlap]
    · obtain ⟨m, hm⟩ : ∃ m, text.length = m + 1 := ⟨text.length - 1, by omega⟩
      rw [hm, chunkLoop, if_pos hlen, if_neg (by omega)]
      rw [joinOverlap]
      have hmfuel : text.length ≤ 0 + (s - o) + m * (s - o) := by
        have h1 : text.length ≤ (m + 1) * (s - o) := by
          rw [← hm]
          omega
        have hmul : (m + 1) * (s - o) = (s - o) + m * (s - o) := by ring
        omega
      rw [chunkLoop_map_drop_flatten text s o ho m (0 + (s - o))
        (by omega) hmfuel]
      simp only [List.drop_zero, Nat.zero_add]
      have hso : s - o + o = s := by omega
      rw [hso]
      exact List.take_append_drop s text
  · intro hsmall
    exact chunkLoop_single text s o hlen hsmall text.length (by omega)

/-- C4 witness: the amended chunker specification instantiated at a
concrete 10-character text with window 5 and overlap 2. -/
theorem chunk_text_windows_spec_witness :
    ∃ chunks, chunk_text "abcdefghij".toList 5 2 = .ok chunks ∧
      chunks ≠ [] ∧
      (∀ i, i < chunks.length →
        chunks.getD i [] = ("abcdefghij".toList.drop (i * (5 - 2))).take 5) ∧
      (∀ i, i + 1 < chunks.length → (chunks.getD i []).length = 5) ∧
      joinOverlap 2 chunks = "abcdefghij".toList ∧
      ("abcdefghij".toList.length ≤ 5 → chunks = ["abcdefghij".toList]) :=
  chunk_text_windows_spec "abcdefghij".toList 5 2 (by omega) (by omega)
    (by omega) (by decide)

/-- The source list of a non-empty chunk list is non-empty. -/
theorem buildSources_ne_nil (c : TextChunk) (cs : List TextChunk) :
    buildSources (c :: cs) ≠ [] := by
  intro h
  have hlen := congrArg List.length h
  simp only [buildSources, List.length_map, List.enum_length,
    List.length_cons, List.length_nil] at hlen
  exact Nat.succ_ne_zero _ hlen

/-- The fixed insufficient-information message matches the cannot-find
pattern of agent.py line 427. -/
theorem insufficient_pattern_true :
    (containsSub "sufficient information".toList insufficientInfoMsg &&
     containsSub "cannot find".toList insufficientInfoMsg) = true := by
  decide

/-- No generation-failure fallback message matches the cannot-find pattern
of agent.py line 427. -/
theorem fallback_pattern_false (e : List Char) :
    (containsSub "sufficient information".toList (fallbackMessage e) &&
     containsSub "cannot find".toList (fallbackMessage e)) = false := by
  rw [fallbackMessage]
  split_ifs <;> decide

/-- The try-block of `query` never itself builds an ERROR response: its
three constructions are CONVERSATIONAL, INSUFFICIENT_CONTEXT and
SUCCESS. -/
theorem queryTryBody_ok_status (env : AgentEnv) (t qid : List Char)
    (r : AgentResponse) (h : queryTryBody env t qid = .ok r) :
    r.status ≠ .error := by
  rw [queryTryBody] at h
  split at h
  · injection h with h'
    subst h'
    simp
  · split at h
    · simp at h
    · split at h
      · injection h with h'
        subst h'
        simp
      · injection h with h'
        subst h'
        simp

/-- Every response the try-block builds satisfies the spec's status
invariants. -/
theorem queryTryBody_invariant (env : AgentEnv) (t qid : List Char)
    (r : AgentResponse) (h : queryTryBody env t qid = .ok r) :
    responseInvariant r := by
  rw [queryTryBody] at h
  split at h
  · injection h with h'
    subst h'
    simp [responseInvariant]
  · split at h
    · simp at h
    · rename_i rr hretr
      split at h
      · injection h with h'
        subst h'
        simp [responseInvariant]
      · rename_i hc
        injection h with h'
        subst h'
        have hchunks : rr.chunks ≠ [] := by
          intro hnil
          have hgen : generate_answer env t rr.chunks = insufficientInfoMsg := by
            rw [generate_answer, if_pos hnil]
          rw [hgen, insufficient_pattern_true] at hc
          exact hc rfl
        refine ⟨fun _ => ⟨by simp, ?_⟩, by simp, by simp, by simp⟩
        cases hcl : rr.chunks with
        | nil => exact absurd hcl hchunks
        | cons c cs =>
            simp only [hcl]
            exact buildSources_ne_nil c cs

/-- C3 (amended).  For every user query that passes `Query` validation
(non-blank, at most 500 characters), the pipeline returns a well-formed
`AgentResponse` — no exception escapes; any exception raised inside the
processing is caught at the top level and converted to a `status=ERROR`
response carrying that exception's message, and that catch is the only way
an ERROR response is produced.  (The unrestricted claim fails: for blank or
over-long queries the `Query` constructor runs before the `try`, so its
`ValueError` escapes — see the counterexample.) -/
theorem query_total_for_valid_text :
    ∀ (env : AgentEnv) (t : List Char) (q : Query),
      mkQuery t env.freshId = .ok q →
      ∃ r, RetrievalAgent.query env t = .ok r ∧
        (∀ e, queryTryBody env t q.query_id = .error e →
          r.status = .error ∧ r.error_message = some e) ∧
        (∀ r', queryTryBody env t q.query_id = .ok r' →
          r = r' ∧ r.status ≠ .error) ∧
        (r.status = .error →
          ∃ e, queryTryBody env t q.query_id = .error e ∧
            r.error_message = some e) := by
  intro env t q hmk
  cases htb : queryTryBody env t q.query_id with
  | error e =>
      refine ⟨{ query_id := q.query_id, status := .error,
                error_message := some e }, ?_, ?_, ?_, ?_⟩
      · simp only [RetrievalAgent.query, hmk, htb]
      · intro e' he'
        injection he' with h'
        subst h'
        exact ⟨rfl, rfl⟩
      · intro r' hr'
        simp at hr'
      · intro _
        exact ⟨e, rfl, rfl⟩
  | ok r' =>
      refine ⟨r', ?_, ?_, ?_, ?_⟩
      · simp only [RetrievalAgent.query, hmk, htb]
      · intro e he
        simp at he
      · intro r'' hr''
        injection hr'' with h'
        exact ⟨h', queryTryBody_ok_status env t q.query_id r' htb⟩
      · intro hs
        exact absurd hs (queryTryBody_ok_status env t q.query_id r' htb)

/-- C3 counterexample.  `Query(text=user_query)` runs before the `try`
(agent.py line 379), so the empty query makes `query` raise `ValueError`
instead of returning an ERROR response. -/
theorem query_raises_on_empty_text :
    RetrievalAgent.query demoEnv [] =
      .error "Query text cannot be empty".toList := rfl

/-- C3 witness: the amended totality theorem at a concrete environment and
a concrete valid query. -/
theorem query_total_for_valid_text_witness :
    ∃ r, RetrievalAgent.query demoEnv "what is robotics".toList = .ok r ∧
      (∀ e, queryTryBody demoEnv "what is robotics".toList "qid-1".toList
          = .error e → r.status = .error ∧ r.error_message = some e) ∧
      (∀ r', queryTryBody demoEnv "what is robotics".toList "qid-1".toList
          = .ok r' → r = r' ∧ r.status ≠ .error) ∧
      (r.status = .error →
        ∃ e, queryTryBody demoEnv "what is robotics".toList "qid-1".toList
            = .error e ∧ r.error_message = some e) :=
  query_total_for_valid_text demoEnv "what is robotics".toList
    ⟨"what is robotics".toList, "qid-1".toList⟩ (by rfl)

/-- C1 (amended).  The `AgentResponse` dataclass itself enforces nothing
(see the counterexample), but every response the query pipeline actually
returns satisfies the status invariants: SUCCESS implies a non-null answer
and at least one source, CONVERSATIONAL a non-null answer and zero sources,
INSUFFICIENT_CONTEXT and ERROR a non-null error message. -/
theorem query_responses_satisfy_invariants :
    ∀ (env : AgentEnv) (t : List Char) (r : AgentResponse),
      RetrievalAgent.query env t = .ok r → responseInvariant r := by
  intro env t r h
  rw [RetrievalAgent.query] at h
  split at h
  · simp at h
  · rename_i q hmk
    injection h with h'
    split at h'
    · rename_i r' htb
      subst h'
      exact queryTryBody_invariant env t q.query_id _ htb
    · rename_i e htb
      subst h'
      simp [responseInvariant]

/-- C1 witness: the invariants hold of the concrete conversational response
the pipeline returns on "hi". -/
theorem query_responses_satisfy_invariants_witness :
    responseInvariant demoConvResponse :=
  query_responses_satisfy_invariants demoEnv "hi".toList demoConvResponse
    (by rfl)

/-- C10.  For a valid content query whose retrieval produced at least one
chunk, a Generation Service failure is swallowed inside `generate_answer`
(agent.py lines 361-370): the pipeline still returns SUCCESS, with the
fixed fallback message as the answer and the retrieved chunks attached as
sources — never ERROR or INSUFFICIENT_CONTEXT. -/
theorem generation_failure_yields_success
    (env : AgentEnv) (t : List Char) (q : Query) (rr : RetrievalResult)
    (e : List Char)
    (hmk : mkQuery t env.freshId = .ok q)
    (hlow : isGreetingOrLowIntent t = false)
    (hretr : retrieve_information env t env.top_k env.score_threshold = .ok rr)
    (hch : rr.chunks ≠ [])
    (hchat : env.chat t (docsOf rr.chunks) = .error e) :
    ∃ r, RetrievalAgent.query env t = .ok r ∧ r.status = .success ∧
      r.answer = some (fallbackMessage e) ∧
      r.sources = buildSources rr.chunks ∧
      r.status ≠ .insufficient_context ∧ r.status ≠ .error := by
  have hgen : generate_answer env t rr.chunks = fallbackMessage e := by
    rw [generate_answer, if_neg hch, hchat]
  have hlow' : ¬ isGreetingOrLowIntent t = true := by simp [hlow]
  have htb : queryTryBody env t q.query_id = .ok
      { query_id := q.query_id, status := .success,
        answer := some (fallbackMessage e),
        confidence := some (confidenceOf rr.chunks),
        sources := buildSources rr.chunks,
        metadata := some (mkResponseMetadata env) } := by
    rw [queryTryBody, if_neg hlow']
    simp only [hretr]
    rw [hgen, fallback_pattern_false e]
    simp
  refine ⟨{ query_id := q.query_id, status := .success,
            answer := some (fallbackMessage e),
            confidence := some (confidenceOf rr.chunks),
            sources := buildSources rr.chunks,
            metadata := some (mkResponseMetadata env) },
    ?_, rfl, rfl, rfl, by simp, by simp⟩
  simp only [RetrievalAgent.query, hmk, htb]

/-- C10 witness: the theorem at the concrete failing-generation
environment. -/
theorem generation_failure_yields_success_witness :
    ∃ r, RetrievalAgent.query envGenFail "what is robotics".toList = .ok r ∧
      r.status = .success ∧
      r.answer = some (fallbackMessage "service down".toList) ∧
      r.sources = buildSources rrDemo.chunks ∧
      r.status ≠ .insufficient_context ∧ r.status ≠ .error :=
  generation_failure_yields_success envGenFail "what is robotics".toList
    ⟨"what is robotics".toList, "qid-1".toList⟩ rrDemo "service down".toList
    (by rfl) (by rfl) (by rfl) (by exact List.cons_ne_nil _ _) (by rfl)

/-- C9 (amended).  `similarity_search` in retrieve.py does validate the
query vector's length against the collection's configured dimension before
issuing the search (retrieve.py lines 566-574): for every search backend,
a mismatched vector yields the dimension-mismatch error and the backend is
never consulted — the result is the same for all backends.  (The
unrestricted claim — EVERY nearest-neighbor search operation validates —
fails: the agent's `retrieve_information` performs no dimension check, see
the counterexample.) -/
theorem similarity_search_validates_dimension :
    ∀ (col : CollectionView)
      (search : List ℚ → Int → Option ℚ → List ScoredPoint)
      (name : List Char) (qv : List ℚ) (top_k : Int) (thr : Option ℚ),
      pyStrip name ≠ [] → qv ≠ [] → 0 < top_k → top_k ≤ 100 →
      (∀ t, thr = some t → 0 ≤ t ∧ t ≤ 1) →
      qv.length ≠ col.size →
      similarity_search (.ok col) search name qv top_k thr =
        .error (.connectionError (searchFailMsg name
          (dimMismatchMsg qv.length col.size))) := by
  intro col search name qv top_k thr hname hqv htk1 htk2 hthr hdim
  cases thr with
  | none =>
      rw [similarity_search.eq_def, if_neg hname, if_neg hqv,
        if_neg (by omega), if_neg (by simp)]
      simp [hdim]
  | some t =>
      obtain ⟨h1, h2⟩ := hthr t rfl
      rw [similarity_search.eq_def, if_neg hname, if_neg hqv,
        if_neg (by omega), if_neg (by
          simp only [Bool.or_eq_true, decide_eq_true_eq]
          rintro (h | h) <;> linarith)]
      simp [hdim]

/-- C9 witness: a concrete mismatched call (3-vector against dimension
1024) fails with the dimension-mismatch error without consulting the
backend. -/
theorem similarity_search_validates_dimension_witness :
    similarity_search (.ok { size := 1024, points_count := 12 })
        (fun _ _ _ => []) "rag_embedding".toList [1, 0, 0] 5 none =
      .error (.connectionError (searchFailMsg "rag_embedding".toList
        (dimMismatchMsg ([1, 0, 0] : List ℚ).length 1024))) :=
  similarity_search_validates_dimension { size := 1024, points_count := 12 }
    (fun _ _ _ => []) "rag_embedding".toList [1, 0, 0] 5 none
    (by decide) (by simp) (by omega) (by omega)
    (fun t ht => Option.noConfusion ht) (by decide)

/-- C9 counterexample.  The agent's `retrieve_information` issues its
search with no dimension validation at all: in an environment whose
collection is configured with dimension 1024 but whose embedding comes back
with length 3, the search is still issued and its hit flows into the
returned result — there is no dimension-mismatch failure (agent.py
lines 250-316 contain no length check). -/
theorem agent_search_skips_dimension_check :
    demoEmbedding.length ≠ 1024 ∧
    demoEnv.getCollection = .ok { size := 1024, points_count := 12 } ∧
    demoEnv.embedQuery "what is robotics".toList = .ok demoEmbedding ∧
    retrieve_information demoEnv "what is robotics".toList 5 (1/2)
      = .ok rrDemo ∧
    rrDemo.filtered_count = 1 :=
  ⟨by decide, rfl, rfl, rfl, rfl⟩
